import Mathlib

/-!
Verification of the write-side serializer core of the rkyv repository
(`src/rkyv/src/ser/mod.rs`): the `Serializer` aggregate that composes a
writer, an allocator, and a pointer-sharing component, together with the
capability interfaces it forwards to.

The aggregator, its constructors/destructors, the forwarding impls and the
two preset type aliases are embedded directly from the source.  The concrete
components (`BufferWriter`, `SubAllocator`, `ArenaHandle`, `Share`,
`Unshare`) live in submodules that are not part of the provided source tree;
they are modelled from the specification, as marked on each definition.

Modelling conventions: `&mut self` methods returning `Result<T, E>` become
state-passing functions `State → Args → State × Except E T`; `&self` methods
become pure functions of the state; byte slices `&[u8]` become `List Nat`;
`usize` positions and addresses become `Nat`; the raw pointer handle
`NonNull<[u8]>` returned by `push_alloc` becomes the `Nat` offset of the
region inside the arena's backing buffer.
-/

namespace Rkyv

/-- Error kinds surfaced by the capabilities, per the spec's error taxonomy
(section 7): writer capacity errors, allocator exhaustion and stack-discipline
violations, and sharing duplicate-record errors. -/
inductive Error where
  | CapacityError
  | OutOfMemory
  | AllocationMismatch
  | DuplicateSharedPointer
  deriving DecidableEq

/-- A memory layout request: size and alignment, mirroring
`core::alloc::Layout` as used by `push_alloc`/`pop_alloc`. -/
structure Layout where
  size : Nat
  align : Nat
  deriving DecidableEq

instance {ε α : Type} [DecidableEq ε] [DecidableEq α] :
    DecidableEq (Except ε α) := fun x y =>
  match x, y with
  | .ok a, .ok b =>
    if h : a = b then .isTrue (by rw [h]) else .isFalse (by simp [h])
  | .ok _, .error _ => .isFalse (by simp)
  | .error _, .ok _ => .isFalse (by simp)
  | .error a, .error b =>
    if h : a = b then .isTrue (by rw [h]) else .isFalse (by simp [h])

/-- The `Positional` trait: reports the current byte position. -/
class Positional (W : Type) where
  pos : W → Nat

/-- The `Writer<E>` trait: `fn write(&mut self, bytes: &[u8]) -> Result<(), E>`,
embedded as a state-passing function. -/
class Writer (E : Type) (W : Type) where
  write : W → List Nat → W × Except E Unit

/-- The `Allocator<E>` trait: `push_alloc(layout) -> Result<NonNull<[u8]>, E>`
and `pop_alloc(ptr, layout) -> Result<(), E>`, with the region pointer
modelled as a `Nat` offset into the arena backing buffer. -/
class Allocator (E : Type) (A : Type) where
  push_alloc : A → Layout → A × Except E Nat
  pop_alloc : A → Nat → Layout → A × Except E Unit

/-- The `Sharing<E>` trait: `get_shared_ptr(&self, address) -> Option<usize>`
and `add_shared_ptr(&mut self, address, pos) -> Result<(), E>`. -/
class Sharing (E : Type) (S : Type) where
  get_shared_ptr : S → Nat → Option Nat
  add_shared_ptr : S → Nat → Nat → S × Except E Unit

/-- The `Serializer<W, A, S>` aggregate: one writer, one allocator, one
pointer-sharing component, exactly as the source struct. -/
structure Serializer (W A S : Type) where
  writer : W
  allocator : A
  sharing : S
  deriving DecidableEq

/-- The constructor `Serializer::new(writer, allocator, sharing)`. -/
def Serializer.new {W A S : Type} (writer : W) (allocator : A) (sharing : S) :
    Serializer W A S :=
  { writer := writer, allocator := allocator, sharing := sharing }

/-- The destructor `Serializer::into_raw_parts`, returning the component
triple. -/
def Serializer.into_raw_parts {W A S : Type} (s : Serializer W A S) :
    W × A × S :=
  (s.writer, s.allocator, s.sharing)

/-- The destructor `Serializer::into_writer`, returning only the writer and
discarding the allocator and sharing. -/
def Serializer.into_writer {W A S : Type} (s : Serializer W A S) : W :=
  s.writer

/-- The `Positional` impl for `Serializer`: forwards to `self.writer.pos()`. -/
def Serializer.pos {W A S : Type} [Positional W] (s : Serializer W A S) :
    Nat :=
  Positional.pos s.writer

instance {W A S : Type} [Positional W] : Positional (Serializer W A S) :=
  ⟨Serializer.pos⟩

/-- The `Writer<E>` impl for `Serializer`: forwards to
`self.writer.write(bytes)`. -/
def Serializer.write {W A S E : Type} [Writer E W] (s : Serializer W A S)
    (bytes : List Nat) : Serializer W A S × Except E Unit :=
  let r := Writer.write s.writer bytes
  ({ s with writer := r.1 }, r.2)

instance {W A S E : Type} [Writer E W] : Writer E (Serializer W A S) :=
  ⟨Serializer.write⟩

/-- The `Allocator<E>` impl for `Serializer`, `push_alloc` case: forwards to
`self.allocator.push_alloc(layout)`. -/
def Serializer.push_alloc {W A S E : Type} [Allocator E A]
    (s : Serializer W A S) (layout : Layout) :
    Serializer W A S × Except E Nat :=
  let r := Allocator.push_alloc s.allocator layout
  ({ s with allocator := r.1 }, r.2)

/-- The `Allocator<E>` impl for `Serializer`, `pop_alloc` case: forwards to
`self.allocator.pop_alloc(ptr, layout)`. -/
def Serializer.pop_alloc {W A S E : Type} [Allocator E A]
    (s : Serializer W A S) (ptr : Nat) (layout : Layout) :
    Serializer W A S × Except E Unit :=
  let r := Allocator.pop_alloc s.allocator ptr layout
  ({ s with allocator := r.1 }, r.2)

instance {W A S E : Type} [Allocator E A] : Allocator E (Serializer W A S) :=
  ⟨Serializer.push_alloc, Serializer.pop_alloc⟩

/-- The `Sharing<E>` impl for `Serializer`, lookup case: forwards to
`self.sharing.get_shared_ptr(address)`. -/
def Serializer.get_shared_ptr {W A S E : Type} [Sharing E S]
    (s : Serializer W A S) (address : Nat) : Option Nat :=
  @Sharing.get_shared_ptr E S _ s.sharing address

/-- The `Sharing<E>` impl for `Serializer`, record case: forwards to
`self.sharing.add_shared_ptr(address, pos)`. -/
def Serializer.add_shared_ptr {W A S E : Type} [Sharing E S]
    (s : Serializer W A S) (address : Nat) (pos : Nat) :
    Serializer W A S × Except E Unit :=
  let r := Sharing.add_shared_ptr s.sharing address pos
  ({ s with sharing := r.1 }, r.2)

instance {W A S E : Type} [Sharing E S] : Sharing E (Serializer W A S) :=
  ⟨fun s a => @Serializer.get_shared_ptr W A S E _ s a,
    Serializer.add_shared_ptr⟩

/-- Modelled from the spec: the Writer component (spec section 4.1), whose
implementation (`ser/writer.rs`) is not in the provided source tree.  State is
the list of committed bytes plus an optional sink capacity; `write` appends
when the sink can accept the bytes and otherwise fails with a capacity error
committing nothing; `pos` is the number of committed bytes. -/
structure BufferWriter where
  bytes : List Nat
  cap : Option Nat
  deriving DecidableEq

/-- Modelled from the spec: creation of a fresh writer with no committed
bytes and a caller-supplied capacity bound (none meaning unbounded). -/
def BufferWriter.new (cap : Option Nat) : BufferWriter :=
  { bytes := [], cap := cap }

/-- Modelled from the spec: `pos()` returns the number of bytes committed so
far, with no side effects. -/
def BufferWriter.pos (w : BufferWriter) : Nat :=
  w.bytes.length

/-- Modelled from the spec: `write(bytes)` appends `bytes` to the sink and
advances the position by their length; it fails with a capacity error, and
commits nothing, when the sink cannot accept the data. -/
def BufferWriter.write (w : BufferWriter) (bytes : List Nat) :
    BufferWriter × Except Error Unit :=
  match w.cap with
  | none => ({ w with bytes := w.bytes ++ bytes }, .ok ())
  | some c =>
    if w.bytes.length + bytes.length ≤ c then
      ({ w with bytes := w.bytes ++ bytes }, .ok ())
    else
      (w, .error .CapacityError)

instance : Positional BufferWriter :=
  ⟨BufferWriter.pos⟩

instance : Writer Error BufferWriter :=
  ⟨BufferWriter.write⟩

/-- Rounds `n` up to the next multiple of `a` (with `a = 0` treated as no
alignment), used to model alignment of scratch regions. -/
def alignUp (n a : Nat) : Nat :=
  if a = 0 then n else (n + a - 1) / a * a

/-- Modelled from the spec: the bounded sub-allocator (spec section 4.2),
whose implementation (`ser/allocator.rs`) is not in the provided source tree.
It operates over a single fixed-capacity backing buffer; live regions form a
stack of (offset, layout) pairs, most recent first. -/
structure SubAllocator where
  cap : Nat
  regions : List (Nat × Layout)
  deriving DecidableEq

/-- Modelled from the spec: a fresh bounded sub-allocator over a
caller-supplied buffer of `cap` bytes with no open regions. -/
def SubAllocator.new (cap : Nat) : SubAllocator :=
  { cap := cap, regions := [] }

/-- The offset of the first free byte of the backing buffer: the end of the
most recently acquired still-open region, or 0 when none is open. -/
def SubAllocator.used (a : SubAllocator) : Nat :=
  match a.regions with
  | [] => 0
  | r :: _ => r.1 + r.2.size

/-- Modelled from the spec: `acquire(layout)` returns a region satisfying the
requested size and alignment, or fails with OutOfMemory when the backing
buffer cannot satisfy the request, making no allocation and leaving the arena
unchanged. -/
def SubAllocator.push_alloc (a : SubAllocator) (layout : Layout) :
    SubAllocator × Except Error Nat :=
  let off := alignUp a.used layout.align
  if off + layout.size ≤ a.cap then
    ({ a with regions := (off, layout) :: a.regions }, .ok off)
  else
    (a, .error .OutOfMemory)

/-- Modelled from the spec: `release(handle, layout)` pops the most recently
acquired still-open region when `handle`/`layout` match it, and otherwise
fails with AllocationMismatch leaving the arena unchanged. -/
def SubAllocator.pop_alloc (a : SubAllocator) (ptr : Nat) (layout : Layout) :
    SubAllocator × Except Error Unit :=
  match a.regions with
  | [] => (a, .error .AllocationMismatch)
  | r :: rest =>
    if ptr = r.1 ∧ layout = r.2 then
      ({ a with regions := rest }, .ok ())
    else
      (a, .error .AllocationMismatch)

instance : Allocator Error SubAllocator :=
  ⟨SubAllocator.push_alloc, SubAllocator.pop_alloc⟩

/-- Modelled from the spec: the growable arena handle (spec section 4.2),
whose implementation (`ser/allocator.rs`) is not in the provided source tree.
It may request additional memory from the ambient allocator, so acquisition
is not capacity-bounded; live regions form the same stack as the bounded
variant. -/
structure ArenaHandle where
  regions : List (Nat × Layout)
  deriving DecidableEq

/-- The offset of the first free byte of the growable arena. -/
def ArenaHandle.used (a : ArenaHandle) : Nat :=
  match a.regions with
  | [] => 0
  | r :: _ => r.1 + r.2.size

/-- Modelled from the spec: `acquire(layout)` on the growable arena, which
can always obtain more memory from the ambient allocator. -/
def ArenaHandle.push_alloc (a : ArenaHandle) (layout : Layout) :
    ArenaHandle × Except Error Nat :=
  let off := alignUp a.used layout.align
  ({ a with regions := (off, layout) :: a.regions }, .ok off)

/-- Modelled from the spec: `release(handle, layout)` on the growable arena,
enforcing the same stack discipline as the bounded variant. -/
def ArenaHandle.pop_alloc (a : ArenaHandle) (ptr : Nat) (layout : Layout) :
    ArenaHandle × Except Error Unit :=
  match a.regions with
  | [] => (a, .error .AllocationMismatch)
  | r :: rest =>
    if ptr = r.1 ∧ layout = r.2 then
      ({ a with regions := rest }, .ok ())
    else
      (a, .error .AllocationMismatch)

instance : Allocator Error ArenaHandle :=
  ⟨ArenaHandle.push_alloc, ArenaHandle.pop_alloc⟩

/-- Looks up an address in an association list of (address, position)
entries, returning the first recorded position. -/
def lookupEntry : List (Nat × Nat) → Nat → Option Nat
  | [], _ => none
  | e :: rest, a => if e.1 = a then some e.2 else lookupEntry rest a

/-- Modelled from the spec: the deduplicating Sharing component (spec section
4.3), whose implementation (`ser/sharing.rs`) is not in the provided source
tree.  State is the address-to-position table. -/
structure Share where
  entries : List (Nat × Nat)
  deriving DecidableEq

/-- Modelled from the spec: a fresh sharing table with no recorded
addresses. -/
def Share.new : Share :=
  { entries := [] }

/-- Modelled from the spec: `lookup(address)` returns the previously recorded
position for `address`, or none; it is pure. -/
def Share.get_shared_ptr (s : Share) (address : Nat) : Option Nat :=
  lookupEntry s.entries address

/-- Modelled from the spec: `record(address, pos)` associates `address` with
`pos`; it succeeds idempotently when `address` is already recorded at `pos`,
and fails with DuplicateSharedPointer when `address` is already recorded at a
different position. -/
def Share.add_shared_ptr (s : Share) (address : Nat) (pos : Nat) :
    Share × Except Error Unit :=
  match lookupEntry s.entries address with
  | none => ({ entries := (address, pos) :: s.entries }, .ok ())
  | some q =>
    if q = pos then
      (s, .ok ())
    else
      (s, .error .DuplicateSharedPointer)

instance : Sharing Error Share :=
  ⟨Share.get_shared_ptr, Share.add_shared_ptr⟩

/-- Modelled from the spec: the non-sharing variant `Unshare` (spec section
4.3): `lookup` always reports not found, `record` always succeeds with no
observable effect.  It carries no state, like the unit struct in the
repository. -/
structure Unshare where
  deriving DecidableEq

/-- Modelled from the spec: `lookup` on `Unshare` always returns none. -/
def Unshare.get_shared_ptr (_ : Unshare) (_ : Nat) : Option Nat :=
  none

/-- Modelled from the spec: `record` on `Unshare` always succeeds and leaves
the (empty) state unchanged. -/
def Unshare.add_shared_ptr (u : Unshare) (_ : Nat) (_ : Nat) :
    Unshare × Except Error Unit :=
  (u, .ok ())

instance : Sharing Error Unshare :=
  ⟨Unshare.get_shared_ptr, Unshare.add_shared_ptr⟩

/-- Modelled from the spec: `rancor::Strategy<T, E>`, the transparent wrapper
that binds an error type to a serializer; it holds exactly the wrapped
value. -/
structure Strategy (T : Type) (E : Type) where
  inner : T

/-- The preset `CoreSerializer<'a, W, E>` from the source: a serializer for
environments where allocations cannot be made, pairing the bounded
sub-allocator with the non-sharing variant. -/
def CoreSerializer (W E : Type) : Type :=
  Strategy (Serializer W SubAllocator Unshare) E

/-- The preset `DefaultSerializer<'a, W, E>` from the source: a
general-purpose serializer, pairing the growable arena handle with full
sharing. -/
def DefaultSerializer (W E : Type) : Type :=
  Strategy (Serializer W ArenaHandle Share) E

/-- True exactly when an operation result is a success. -/
def exceptOk {E T : Type} : Except E T → Bool
  | .ok _ => true
  | .error _ => false

/-- Runs a sequence of `write` calls on a serializer wrapping a
`BufferWriter`, returning the final state and whether every call
succeeded. -/
def Serializer.runWrites {A S : Type} (s : Serializer BufferWriter A S) :
    List (List Nat) → Serializer BufferWriter A S × Bool
  | [] => (s, true)
  | bs :: rest =>
    let r := @Serializer.write BufferWriter A S Error _ s bs
    let q := Serializer.runWrites r.1 rest
    (q.1, exceptOk r.2 && q.2)

/-- Runs a sequence of `record` calls on a sharing table, ignoring
per-call results (a failed record leaves the table unchanged). -/
def Share.runAdds (s : Share) : List (Nat × Nat) → Share
  | [] => s
  | c :: rest => Share.runAdds (Share.add_shared_ptr s c.1 c.2).1 rest

/-- Runs a sequence of `record` calls on the non-sharing variant, returning
the final state and whether every call succeeded. -/
def Unshare.runAdds (u : Unshare) : List (Nat × Nat) → Unshare × Bool
  | [] => (u, true)
  | c :: rest =>
    let r := Unshare.add_shared_ptr u c.1 c.2
    let q := Unshare.runAdds r.1 rest
    (q.1, exceptOk r.2 && q.2)

/-- The initial state of the end-to-end scenario: a bounded-profile
serializer with an 8-byte scratch capacity and no sharing. -/
def scenario0 : Serializer BufferWriter SubAllocator Unshare :=
  Serializer.new (BufferWriter.new none) (SubAllocator.new 8) Unshare.mk

/-- Scenario step 1: write 3 bytes. -/
def scenario1 : Serializer BufferWriter SubAllocator Unshare ×
    Except Error Unit :=
  Serializer.write scenario0 [1, 2, 3]

/-- Scenario step 2: acquire a 4-byte scratch region. -/
def scenario2 : Serializer BufferWriter SubAllocator Unshare ×
    Except Error Nat :=
  Serializer.push_alloc scenario1.1 (Layout.mk 4 1)

/-- Scenario step 3: release the acquired region. -/
def scenario3 : Serializer BufferWriter SubAllocator Unshare ×
    Except Error Unit :=
  Serializer.pop_alloc scenario2.1 0 (Layout.mk 4 1)

/-- Scenario step 4: write 2 more bytes. -/
def scenario4 : Serializer BufferWriter SubAllocator Unshare ×
    Except Error Unit :=
  Serializer.write scenario3.1 [4, 5]

/-- Scenario step 5: attempt to acquire a 9-byte scratch region. -/
def scenario5 : Serializer BufferWriter SubAllocator Unshare ×
    Except Error Nat :=
  Serializer.push_alloc scenario4.1 (Layout.mk 9 1)

/-- C1: every capability call on the `Serializer` aggregate returns exactly
the result of the same call on the owned component in the same state: the
non-forwarded fields are untouched, the updated field is exactly the
component's result state, and the success or error value is propagated
unchanged. -/
theorem C1_aggregator_forwards_verbatim {W A S E : Type} [Positional W]
    [Writer E W] [Allocator E A] [Sharing E S] (s : Serializer W A S)
    (bytes : List Nat) (layout : Layout) (ptr address p : Nat) :
    Serializer.pos s = Positional.pos s.writer
    ∧ (@Serializer.write W A S E _ s bytes).1.writer
        = (@Writer.write E W _ s.writer bytes).1
    ∧ (@Serializer.write W A S E _ s bytes).2
        = (@Writer.write E W _ s.writer bytes).2
    ∧ (@Serializer.push_alloc W A S E _ s layout).1.allocator
        = (@Allocator.push_alloc E A _ s.allocator layout).1
    ∧ (@Serializer.push_alloc W A S E _ s layout).2
        = (@Allocator.push_alloc E A _ s.allocator layout).2
    ∧ (@Serializer.pop_alloc W A S E _ s ptr layout).1.allocator
        = (@Allocator.pop_alloc E A _ s.allocator ptr layout).1
    ∧ (@Serializer.pop_alloc W A S E _ s ptr layout).2
        = (@Allocator.pop_alloc E A _ s.allocator ptr layout).2
    ∧ @Serializer.get_shared_ptr W A S E _ s address
        = @Sharing.get_shared_ptr E S _ s.sharing address
    ∧ (@Serializer.add_shared_ptr W A S E _ s address p).1.sharing
        = (@Sharing.add_shared_ptr E S _ s.sharing address p).1
    ∧ (@Serializer.add_shared_ptr W A S E _ s address p).2
        = (@Sharing.add_shared_ptr E S _ s.sharing address p).2 :=
  ⟨rfl, rfl, rfl, rfl, rfl, rfl, rfl, rfl, rfl, rfl⟩

/-- C7: the two presets compose exactly the components the spec assigns
them: `CoreSerializer` pairs the bounded sub-allocator with the non-sharing
variant, and `DefaultSerializer` pairs the growable arena handle with full
sharing. -/
theorem C7_presets_compose_assigned_components (W E : Type) :
    CoreSerializer W E = Strategy (Serializer W SubAllocator Unshare) E
    ∧ DefaultSerializer W E = Strategy (Serializer W ArenaHandle Share) E :=
  ⟨rfl, rfl⟩

/-- C8: construction and decomposition are mutually inverse:
`into_raw_parts` on `new w a s` returns exactly the triple `(w, a, s)`, and
`into_writer` returns exactly `w`. -/
theorem C8_new_into_raw_parts_inverse {W A S : Type} (w : W) (a : A)
    (s : S) :
    (Serializer.new w a s).into_raw_parts = (w, a, s)
    ∧ (Serializer.new w a s).into_writer = w :=
  ⟨rfl, rfl⟩

/-- C10: frame separation: each mutating capability call on the aggregate
changes at most the one component field it belongs to, on success and on
failure alike (`pos` and `get_shared_ptr` are embedded as pure functions of
the state, mirroring their `&self` receivers, so they change nothing by
construction). -/
theorem C10_frame_separation {W A S E : Type} [Positional W] [Writer E W]
    [Allocator E A] [Sharing E S] (s : Serializer W A S)
    (bytes : List Nat) (layout : Layout) (ptr address p : Nat) :
    (@Serializer.write W A S E _ s bytes).1.allocator = s.allocator
    ∧ (@Serializer.write W A S E _ s bytes).1.sharing = s.sharing
    ∧ (@Serializer.push_alloc W A S E _ s layout).1.writer = s.writer
    ∧ (@Serializer.push_alloc W A S E _ s layout).1.sharing = s.sharing
    ∧ (@Serializer.pop_alloc W A S E _ s ptr layout).1.writer = s.writer
    ∧ (@Serializer.pop_alloc W A S E _ s ptr layout).1.sharing = s.sharing
    ∧ (@Serializer.add_shared_ptr W A S E _ s address p).1.writer = s.writer
    ∧ (@Serializer.add_shared_ptr W A S E _ s address p).1.allocator
        = s.allocator :=
  ⟨rfl, rfl, rfl, rfl, rfl, rfl, rfl, rfl⟩

/-- Success test for operation results: `exceptOk` is true exactly on
`Except.ok ()`. -/
theorem exceptOk_eq_true {E : Type} (r : Except E Unit) :
    exceptOk r = true ↔ r = .ok () := by
  cases r with
  | ok u => cases u; simp [exceptOk]
  | error e => simp [exceptOk]

/-- Single-step behaviour of the modelled writer: a successful `write`
advances the position by exactly the byte length, a failed `write` leaves the
writer unchanged, and the position never decreases. -/
theorem BufferWriter.write_step (w : BufferWriter) (bs : List Nat) :
    ((BufferWriter.write w bs).2 = .ok () →
      BufferWriter.pos (BufferWriter.write w bs).1
        = BufferWriter.pos w + bs.length)
    ∧ ((BufferWriter.write w bs).2 ≠ .ok () →
        (BufferWriter.write w bs).1 = w)
    ∧ BufferWriter.pos w ≤ BufferWriter.pos (BufferWriter.write w bs).1 := by
  rcases w with ⟨bytes, cap⟩
  cases cap with
  | none => simp [BufferWriter.write, BufferWriter.pos]
  | some c =>
    by_cases h : bytes.length + bs.length ≤ c <;>
      simp [BufferWriter.write, BufferWriter.pos, h]

/-- Running a sequence of writes on a serializer wrapping a `BufferWriter`:
if every call succeeded the position advances by exactly the total byte
length, and the position never decreases. -/
theorem Serializer.runWrites_pos {A S : Type} (calls : List (List Nat)) :
    ∀ (s : Serializer BufferWriter A S),
      ((Serializer.runWrites s calls).2 = true →
        BufferWriter.pos (Serializer.runWrites s calls).1.writer
          = BufferWriter.pos s.writer + (calls.map List.length).sum)
      ∧ BufferWriter.pos s.writer
          ≤ BufferWriter.pos (Serializer.runWrites s calls).1.writer := by
  induction calls with
  | nil => intro s; simp [Serializer.runWrites]
  | cons bs rest ih =>
    intro s
    have hw := BufferWriter.write_step s.writer bs
    have hi := ih (@Serializer.write BufferWriter A S Error _ s bs).1
    simp only [Serializer.runWrites, Bool.and_eq_true, exceptOk_eq_true,
      List.map_cons, List.sum_cons]
    constructor
    · intro h
      rw [hi.1 h.2, show (@Serializer.write BufferWriter A S Error _
          s bs).1.writer = (BufferWriter.write s.writer bs).1 from rfl,
        hw.1 h.1]
      omega
    · exact le_trans (le_trans hw.2.2 (le_of_eq rfl)) hi.2

/-- C2: on a serializer wrapping a `BufferWriter`, a fully successful
sequence of writes leaves `pos` equal to the sum of the written byte
lengths; a failed write leaves the writer unchanged (so `pos` never moves
past the committed bytes); and `pos` is non-decreasing. -/
theorem C2_pos_equals_sum_of_writes {A S : Type} (a : A) (sh : S)
    (cap : Option Nat) (calls : List (List Nat)) :
    ((Serializer.runWrites (Serializer.new (BufferWriter.new cap) a sh)
        calls).2 = true →
      Serializer.pos (Serializer.runWrites
          (Serializer.new (BufferWriter.new cap) a sh) calls).1
        = (calls.map List.length).sum)
    ∧ Serializer.pos (Serializer.new (BufferWriter.new cap) a sh)
        ≤ Serializer.pos (Serializer.runWrites
            (Serializer.new (BufferWriter.new cap) a sh) calls).1
    ∧ (∀ (w : BufferWriter) (bs : List Nat),
        (BufferWriter.write w bs).2 ≠ .ok () →
          (BufferWriter.write w bs).1 = w)
    ∧ ∀ (w : BufferWriter) (bs : List Nat),
        BufferWriter.pos w ≤ BufferWriter.pos (BufferWriter.write w bs).1 := by
  have h := Serializer.runWrites_pos calls
    (Serializer.new (BufferWriter.new cap) a sh)
  exact ⟨fun hok => (h.1 hok).trans (by simp [BufferWriter.pos,
      BufferWriter.new, Serializer.new]), h.2,
    fun w bs => (BufferWriter.write_step w bs).2.1,
    fun w bs => (BufferWriter.write_step w bs).2.2⟩

/-- Witness for C2 at a concrete successful run: two writes of 1 and 2
bytes from a fresh unbounded writer leave `pos` at the total length. -/
theorem C2_pos_equals_sum_of_writes_witness :
    Serializer.pos (Serializer.runWrites
        (Serializer.new (BufferWriter.new none) (SubAllocator.new 0)
          Unshare.mk) [[1], [2, 3]]).1
      = ([[1], [2, 3]].map List.length).sum :=
  (C2_pos_equals_sum_of_writes (SubAllocator.new 0) Unshare.mk none
      [[1], [2, 3]]).1 rfl

/-- After a successful `record`, `lookup` on the recorded address returns
the recorded position. -/
theorem Share.get_after_add (s : Share) (a p : Nat)
    (h : (Share.add_shared_ptr s a p).2 = .ok ()) :
    Share.get_shared_ptr (Share.add_shared_ptr s a p).1 a = some p := by
  unfold Share.add_shared_ptr at h ⊢
  revert h
  cases hl : lookupEntry s.entries a with
  | none => intro h; simp [Share.get_shared_ptr, lookupEntry]
  | some q =>
    intro h
    by_cases hq : q = p
    · simp [Share.get_shared_ptr, hl, hq]
    · simp [hq] at h

/-- A never-recorded address stays unrecorded across any sequence of
`record` calls. -/
theorem Share.runAdds_get_none (calls : List (Nat × Nat)) :
    ∀ (s : Share) (a : Nat), Share.get_shared_ptr s a = none →
      a ∉ calls.map Prod.fst →
      Share.get_shared_ptr (Share.runAdds s calls) a = none := by
  induction calls with
  | nil => intro s a h _; simpa [Share.runAdds] using h
  | cons c rest ih =>
    intro s a h hmem
    rw [List.map_cons, List.mem_cons] at hmem
    push_neg at hmem
    rw [Share.runAdds]
    refine ih _ a ?_ hmem.2
    unfold Share.add_shared_ptr
    cases hl : lookupEntry s.entries c.1 with
    | none =>
      simp only [Share.get_shared_ptr, lookupEntry]
      rw [if_neg (fun hc => hmem.1 hc.symm)]
      exact h
    | some q => by_cases hq : q = c.2 <;> simp [hq, h]

/-- C3: a successful `record(A, P)` makes `lookup(A)` return `P`, and
`lookup` on an address never passed to `record` returns none (`lookup` is
embedded as a pure function of the sharing state, mirroring its `&self`
receiver). -/
theorem C3_record_then_lookup (s : Share) (a p : Nat)
    (calls : List (Nat × Nat)) :
    ((Share.add_shared_ptr s a p).2 = .ok () →
      Share.get_shared_ptr (Share.add_shared_ptr s a p).1 a = some p)
    ∧ (a ∉ calls.map Prod.fst →
        Share.get_shared_ptr (Share.runAdds Share.new calls) a = none) :=
  ⟨Share.get_after_add s a p, Share.runAdds_get_none calls Share.new a rfl⟩

/-- Witness for C3 at concrete inputs: recording address 7 at position 3
makes lookup of 7 return 3, and address 7 is unrecorded after recording only
address 1. -/
theorem C3_record_then_lookup_witness :
    Share.get_shared_ptr (Share.add_shared_ptr Share.new 7 3).1 7 = some 3
    ∧ Share.get_shared_ptr (Share.runAdds Share.new [(1, 2)]) 7 = none :=
  ⟨(C3_record_then_lookup Share.new 7 3 [(1, 2)]).1 rfl,
    (C3_record_then_lookup Share.new 7 3 [(1, 2)]).2 (by decide)⟩

/-- C4: after a successful `record(A, P1)`, recording `(A, P1)` again
succeeds and changes nothing, while recording `(A, P2)` with `P2 ≠ P1`
fails with DuplicateSharedPointer and changes nothing. -/
theorem C4_record_idempotent_or_duplicate (s : Share) (a p1 p2 : Nat)
    (h : (Share.add_shared_ptr s a p1).2 = .ok ()) :
    Share.add_shared_ptr (Share.add_shared_ptr s a p1).1 a p1
      = ((Share.add_shared_ptr s a p1).1, .ok ())
    ∧ (p2 ≠ p1 →
        Share.add_shared_ptr (Share.add_shared_ptr s a p1).1 a p2
          = ((Share.add_shared_ptr s a p1).1,
              .error Error.DuplicateSharedPointer)) := by
  have hg : lookupEntry (Share.add_shared_ptr s a p1).1.entries a = some p1 :=
    Share.get_after_add s a p1 h
  set s1 := (Share.add_shared_ptr s a p1).1
  constructor
  · simp [Share.add_shared_ptr, hg]
  · intro hne
    simp [Share.add_shared_ptr, hg, Ne.symm hne]

/-- Witness for C4 at concrete inputs: after recording address 1 at
position 5 in a fresh table, re-recording at 5 succeeds unchanged and
recording at 6 fails with DuplicateSharedPointer. -/
theorem C4_record_idempotent_or_duplicate_witness :
    Share.add_shared_ptr (Share.add_shared_ptr Share.new 1 5).1 1 5
      = ((Share.add_shared_ptr Share.new 1 5).1, .ok ())
    ∧ (6 ≠ 5 →
        Share.add_shared_ptr (Share.add_shared_ptr Share.new 1 5).1 1 6
          = ((Share.add_shared_ptr Share.new 1 5).1,
              .error Error.DuplicateSharedPointer)) :=
  C4_record_idempotent_or_duplicate Share.new 1 5 6 rfl

/-- C5: a failed acquisition returns OutOfMemory and leaves the bounded
arena exactly as it was, and a release whose handle/layout do not match the
most recently acquired still-open region fails with AllocationMismatch and
leaves the arena exactly as it was. -/
theorem C5_failed_alloc_leaves_arena_unchanged (a : SubAllocator)
    (layout : Layout) (ptr : Nat) (l : Layout) :
    ((∃ e, (SubAllocator.push_alloc a layout).2 = .error e) →
      SubAllocator.push_alloc a layout = (a, .error Error.OutOfMemory))
    ∧ (a.regions.head? ≠ some (ptr, l) →
        SubAllocator.pop_alloc a ptr l
          = (a, .error Error.AllocationMismatch)) := by
  constructor
  · rintro ⟨e, he⟩
    unfold SubAllocator.push_alloc at he ⊢
    by_cases h : alignUp a.used layout.align + layout.size ≤ a.cap
    · simp [h] at he
    · simp [h]
  · intro h
    rcases a with ⟨cap, regions⟩
    cases regions with
    | nil => rfl
    | cons r rest =>
      obtain ⟨r1, r2⟩ := r
      simp only [List.head?_cons, ne_eq, Option.some.injEq] at h
      have hcond : ¬(ptr = r1 ∧ l = r2) := fun hc => h (by rw [hc.1, hc.2])
      simp [SubAllocator.pop_alloc, hcond]

/-- Witness for C5 at concrete inputs: with capacity 8 and an open 4-byte
region, a 9-byte acquisition fails with OutOfMemory leaving the arena
unchanged, and releasing with the wrong handle fails with
AllocationMismatch leaving the arena unchanged. -/
theorem C5_failed_alloc_leaves_arena_unchanged_witness :
    SubAllocator.push_alloc (SubAllocator.mk 8 [(0, Layout.mk 4 1)])
        (Layout.mk 9 1)
      = (SubAllocator.mk 8 [(0, Layout.mk 4 1)], .error Error.OutOfMemory)
    ∧ SubAllocator.pop_alloc (SubAllocator.mk 8 [(0, Layout.mk 4 1)]) 1
        (Layout.mk 4 1)
      = (SubAllocator.mk 8 [(0, Layout.mk 4 1)],
          .error Error.AllocationMismatch) :=
  ⟨(C5_failed_alloc_leaves_arena_unchanged
        (SubAllocator.mk 8 [(0, Layout.mk 4 1)]) (Layout.mk 9 1) 1
        (Layout.mk 4 1)).1 ⟨Error.OutOfMemory, rfl⟩,
    (C5_failed_alloc_leaves_arena_unchanged
        (SubAllocator.mk 8 [(0, Layout.mk 4 1)]) (Layout.mk 9 1) 1
        (Layout.mk 4 1)).2 (by decide)⟩

/-- C6: the non-sharing variant: `lookup` always returns none, `record`
always succeeds leaving the state unchanged, and any sequence of `record`
calls succeeds entirely with no observable state change. -/
theorem C6_unshare_lookup_none_record_noop (u : Unshare) (address p : Nat)
    (calls : List (Nat × Nat)) :
    Unshare.get_shared_ptr u address = none
    ∧ Unshare.add_shared_ptr u address p = (u, .ok ())
    ∧ Unshare.runAdds u calls = (u, true) := by
  refine ⟨rfl, rfl, ?_⟩
  induction calls with
  | nil => rfl
  | cons c rest ih =>
    simpa [Unshare.runAdds, Unshare.add_shared_ptr, exceptOk] using ih

/-- C9: the end-to-end scenario: on a bounded-profile serializer with an
8-byte scratch capacity and no sharing, writing 3 bytes, acquiring a 4-byte
scratch region, releasing it, and writing 2 more bytes all succeed and leave
`pos` at 5; a subsequent 9-byte acquisition fails with OutOfMemory while
`pos` remains 5. -/
theorem C9_end_to_end_scenario :
    scenario1.2 = .ok () ∧ scenario2.2 = .ok 0 ∧ scenario3.2 = .ok ()
    ∧ scenario4.2 = .ok () ∧ Serializer.pos scenario4.1 = 5
    ∧ scenario5.2 = .error Error.OutOfMemory
    ∧ Serializer.pos scenario5.1 = 5 := by
  decide

end Rkyv
